import Mathlib

/-!
Verification of the invoice field-extraction core of the Tally-Exporter
repository (`backend/services/invoice_detector.py`, `backend/parsers/*.py`).

Python strings are modelled as `List Char`.  `str.upper` / `str.lower` /
`str.strip` are modelled on their ASCII behaviour, which covers every
character occurring in the fixed patterns and fixtures of the code.
Python's `None`-or-string values are modelled as `Option (List Char)`.

The parsers work by `re.search` over fixed patterns; a small backtracking
matcher reproduces the semantics of the exact regex constructs those
patterns use (ordered alternation, greedy / lazy repetition of one-character
classes, capture groups, negative lookahead, `$` under `re.MULTILINE`,
`re.IGNORECASE`).
-/

/-! ### Python string primitives -/

/-- The characters removed by Python `str.strip()` (ASCII whitespace),
which coincide with the characters matched by the regex class `\s`. -/
def pyIsSpace (c : Char) : Bool :=
  c = ' ' || c = '\t' || c = '\n' || c = '\r' || c = '\x0b' || c = '\x0c'

/-- Python `str.strip()`. -/
def pyStrip (s : List Char) : List Char :=
  ((s.dropWhile pyIsSpace).reverse.dropWhile pyIsSpace).reverse

/-- Python `str.upper()` (ASCII). -/
def pyUpper (s : List Char) : List Char := s.map Char.toUpper

/-- Whether `p` is a prefix of `s` (Boolean, by character equality). -/
def startsWithL : List Char → List Char → Bool
  | [], _ => true
  | _ :: _, [] => false
  | p :: ps, c :: cs => p = c && startsWithL ps cs

/-- Python substring test `pat in s`. -/
def containsSub (pat : List Char) : List Char → Bool
  | [] => startsWithL pat []
  | c :: t => startsWithL pat (c :: t) || containsSub pat t

/-- Python `str.split(c)` for a one-character separator (no maxsplit):
`"".split(c) = [""]`. -/
def splitChar (c : Char) : List Char → List (List Char)
  | [] => [[]]
  | x :: r =>
    match splitChar c r with
    | [] => [[]]
    | h :: t => if x = c then [] :: h :: t else (x :: h) :: t

/-- First element of a split result (`.split(sep)[0]`). -/
def firstPart : List (List Char) → List Char
  | [] => []
  | h :: _ => h

/-- Python `str.split(sep, 1)` restricted to the case where `sep` occurs:
returns the pieces before and after the first occurrence of `sep`. -/
def pySplit1 (sep : List Char) : List Char → Option (List Char × List Char)
  | [] => if startsWithL sep [] then some ([], []) else none
  | c :: t =>
    if startsWithL sep (c :: t) then some ([], (c :: t).drop sep.length)
    else
      match pySplit1 sep t with
      | some (a, b) => some (c :: a, b)
      | none => none

/-- Python `str.replace(",", "")`. -/
def dropCommas (s : List Char) : List Char := s.filter (fun c => c ≠ ',')

/-- Python `str.replace(".", "/")`. -/
def dotsToSlashes (s : List Char) : List Char :=
  s.map (fun c => if c = '.' then '/' else c)

/-- The quantity cleanup `value.replace(",", "").split(".")[0]` used for all
numeric quantity captures. -/
def qtyClean (s : List Char) : List Char := firstPart (splitChar '.' (dropCommas s))

/-- Decimal digits of a natural number. -/
def natChars (n : Nat) : List Char := Nat.toDigits 10 n

/-- Python `str(i)` for an integer. -/
def intChars (i : Int) : List Char :=
  if i < 0 then '-' :: natChars (-i).toNat else natChars i.toNat

/-! ### Regular-expression matcher

Only the constructs appearing in the source's patterns are represented.
All repetition operators in those patterns apply to single-character
classes, which the `rep` constructor captures directly. -/

/-- Regex abstract syntax for the constructs used by the parsers. -/
inductive RE : Type where
  /-- empty pattern -/
  | eps : RE
  /-- one-character class -/
  | cls : (Char → Bool) → RE
  /-- concatenation -/
  | seq : RE → RE → RE
  /-- ordered alternation (left preferred) -/
  | alt : RE → RE → RE
  /-- repetition of a one-character class: min, optional max, lazy flag -/
  | rep : (Char → Bool) → Nat → Option Nat → Bool → RE
  /-- numbered capture group -/
  | grp : Nat → RE → RE
  /-- negative lookahead -/
  | nla : RE → RE
  /-- `$` under `re.MULTILINE`: end of input or before a newline -/
  | eol : RE

/-- Capture environment: most recent capture of each group first. -/
abbrev Caps := List (Nat × List Char)

/-- Number of leading characters of `s` satisfying `p`. -/
def countCls (p : Char → Bool) : List Char → Nat
  | [] => 0
  | c :: r => if p c then countCls p r + 1 else 0

/-- Try the given drop-counts in order, calling the continuation on the
corresponding suffix; first success wins. -/
def repTry (s : List Char) (g : Caps)
    (k : List Char → Caps → Option (List Char × Caps)) :
    List Nat → Option (List Char × Caps)
  | [] => none
  | n :: ns =>
    match k (s.drop n) g with
    | some r => some r
    | none => repTry s g k ns

/-- Match a repetition of class `p` (greedy unless `lazy`), with the
backtracking order of Python `re`. -/
def repMatch (p : Char → Bool) (lo : Nat) (hi : Option Nat) (lazy : Bool)
    (s : List Char) (g : Caps)
    (k : List Char → Caps → Option (List Char × Caps)) :
    Option (List Char × Caps) :=
  let avail := countCls p s
  let m := match hi with
    | some h => min avail h
    | none => avail
  if m < lo then none
  else
    let counts := if lazy then List.range' lo (m - lo + 1)
                  else (List.range' lo (m - lo + 1)).reverse
    repTry s g k counts

/-- Backtracking matcher in continuation-passing style.  `mre r s g k`
matches `r` at the start of `s`, extending captures `g`, and calls `k`
with the rest and the new captures; alternatives are explored in the
order Python `re` explores them. -/
def mre : RE → List Char → Caps →
    (List Char → Caps → Option (List Char × Caps)) → Option (List Char × Caps)
  | .eps, s, g, k => k s g
  | .cls p, s, g, k =>
    match s with
    | [] => none
    | c :: r => if p c then k r g else none
  | .seq a b, s, g, k => mre a s g (fun s1 g1 => mre b s1 g1 k)
  | .alt a b, s, g, k =>
    match mre a s g k with
    | some res => some res
    | none => mre b s g k
  | .rep p lo hi lazy, s, g, k => repMatch p lo hi lazy s g k
  | .grp n a, s, g, k =>
    mre a s g (fun s1 g1 => k s1 ((n, s.take (s.length - s1.length)) :: g1))
  | .nla a, s, g, k =>
    match mre a s g (fun s1 g1 => some (s1, g1)) with
    | some _ => none
    | none => k s g
  | .eol, s, g, k =>
    match s with
    | [] => k s g
    | c :: _ => if c = '\n' then k s g else none

/-- Trivial top continuation. -/
def mtop : List Char → Caps → Option (List Char × Caps) :=
  fun s g => some (s, g)

/-- `re.search`: leftmost match, returning the capture environment. -/
def reSearch (r : RE) : List Char → Option Caps
  | [] =>
    match mre r [] [] mtop with
    | some (_, g) => some g
    | none => none
  | c :: t =>
    match mre r (c :: t) [] mtop with
    | some (_, g) => some g
    | none => reSearch r t

/-- `re.match` (anchored at the start): number of characters consumed and
the capture environment. -/
def reMatch0 (r : RE) (s : List Char) : Option (Nat × Caps) :=
  match mre r s [] mtop with
  | some (rest, g) => some (s.length - rest.length, g)
  | none => none

/-- `match.group(n)` (every group of the source's patterns participates in
any successful match). -/
def grpGet (g : Caps) (n : Nat) : List Char := (g.lookup n).getD []

/-! ### Pattern-building helpers (all patterns are compiled with
`re.IGNORECASE`, so literals and letter classes are case-insensitive) -/

/-- Case-insensitive literal character. -/
def chI (c : Char) : RE := .cls (fun x => x.toLower = c.toLower)

/-- Exact (caseless) literal character. -/
def chE (c : Char) : RE := .cls (fun x => x = c)

/-- Case-insensitive literal word. -/
def litI (s : String) : RE := s.data.foldr (fun c r => .seq (chI c) r) .eps

/-- Concatenation of a pattern list. -/
def cat (l : List RE) : RE := l.foldr .seq .eps

/-- `\s*` -/
def rS : RE := .rep pyIsSpace 0 none false

/-- `\s+` -/
def rS1 : RE := .rep pyIsSpace 1 none false

/-- `c?` (case-insensitive) -/
def rOpt (c : Char) : RE := .rep (fun x => x.toLower = c.toLower) 0 (some 1) false

/-- `[A-Z0-9]` under IGNORECASE -/
def isAZ09 (c : Char) : Bool := c.isAlpha || c.isDigit

/-- `\d` -/
def isDigitC (c : Char) : Bool := c.isDigit

/-- `\w` (ASCII) -/
def isWordC (c : Char) : Bool := c.isAlpha || c.isDigit || c = '_'

/-- `[\d,]` -/
def isDigComma (c : Char) : Bool := c.isDigit || c = ','

/-- `[\d.]` -/
def isDigDot (c : Char) : Bool := c.isDigit || c = '.'

/-- `[-./]` -/
def isDMS (c : Char) : Bool := c = '-' || c = '.' || c = '/'

/-- `[./]` -/
def isDotSlash (c : Char) : Bool := c = '.' || c = '/'

/-- `[^\n]` -/
def isNotNL (c : Char) : Bool := c ≠ '\n'

/-- `[A-Z]` under IGNORECASE -/
def isAlphaC (c : Char) : Bool := c.isAlpha

/-- `[\d,]+\.?\d*` — the amount/value shape shared by many patterns. -/
def numRE : RE :=
  cat [.rep isDigComma 1 none false,
       .rep (fun c => c = '.') 0 (some 1) false,
       .rep isDigitC 0 none false]

/-! ### Dates: `datetime.strptime` / `strftime` for the formats the code uses -/

/-- A `datetime.date` (the time-of-day part is always midnight here). -/
structure PyDate where
  y : Int
  m : Int
  d : Int
deriving DecidableEq

/-- Gregorian leap year, as in `calendar.isleap`. -/
def isLeap (y : Int) : Bool :=
  y % 4 = 0 && (y % 100 ≠ 0 || y % 400 = 0)

/-- `calendar.monthrange(y, m)[1]`. -/
def daysInMonth (y m : Int) : Int :=
  if m = 2 then (if isLeap y then 29 else 28)
  else if m = 4 || m = 6 || m = 9 || m = 11 then 30
  else 31

/-- `datetime.date(y, m, d)` for month/day already shaped by the strptime
regex (`1 ≤ m ≤ 12`, `1 ≤ d ≤ 31`, `y` of exactly four digits): validates
the year range and the day against the month length. -/
def mkDate (y m d : Nat) : Option PyDate :=
  if 1 ≤ y ∧ (d : Int) ≤ daysInMonth (y : Int) (m : Int) then
    some ⟨(y : Int), (m : Int), (d : Int)⟩
  else none

/-- First-match-wins over a candidate list (regex alternation order). -/
def firstSome : List α → (α → Option β) → Option β
  | [], _ => none
  | a :: l, f =>
    match f a with
    | some b => some b
    | none => firstSome l f

/-- The `%d` directive `(3[0-1]|[1-2]\d|0[1-9]|[1-9]| [1-9])`: every
alternative, in the priority order of `_strptime.TimeRE`. -/
def dAlts (s : List Char) : List (Nat × List Char) :=
  (match s with
   | a :: c :: r =>
     if a = '3' && (c = '0' || c = '1') then [(30 + (c.toNat - 48), r)] else []
   | _ => []) ++
  (match s with
   | a :: b :: r =>
     if (a = '1' || a = '2') && b.isDigit then
       [((a.toNat - 48) * 10 + (b.toNat - 48), r)]
     else []
   | _ => []) ++
  (match s with
   | a :: c :: r =>
     if a = '0' && ('1' ≤ c && c ≤ '9') then [(c.toNat - 48, r)] else []
   | _ => []) ++
  (match s with
   | c :: r =>
     if '1' ≤ c && c ≤ '9' then [(c.toNat - 48, r)] else []
   | _ => []) ++
  (match s with
   | a :: c :: r =>
     if a = ' ' && ('1' ≤ c && c ≤ '9') then [(c.toNat - 48, r)] else []
   | _ => [])

/-- The `%m` directive `(1[0-2]|0[1-9]|[1-9])`. -/
def mAlts (s : List Char) : List (Nat × List Char) :=
  (match s with
   | a :: c :: r =>
     if a = '1' && (c = '0' || c = '1' || c = '2') then [(10 + (c.toNat - 48), r)]
     else []
   | _ => []) ++
  (match s with
   | a :: c :: r =>
     if a = '0' && ('1' ≤ c && c ≤ '9') then [(c.toNat - 48, r)] else []
   | _ => []) ++
  (match s with
   | c :: r =>
     if '1' ≤ c && c ≤ '9' then [(c.toNat - 48, r)] else []
   | _ => [])

/-- The `%Y` directive `(\d\d\d\d)`: exactly four digits. -/
def y4 (s : List Char) : Option (Nat × List Char) :=
  match s with
  | a :: b :: c :: d :: r =>
    if a.isDigit && b.isDigit && c.isDigit && d.isDigit then
      some ((a.toNat - 48) * 1000 + (b.toNat - 48) * 100 +
            (c.toNat - 48) * 10 + (d.toNat - 48), r)
    else none
  | _ => none

/-- Case-insensitive literal-name match; the stored name is lowercase. -/
def matchNameCI : List Char → List Char → Option (List Char)
  | [], s => some s
  | _ :: _, [] => none
  | p :: ps, c :: cs => if c.toLower = p then matchNameCI ps cs else none

/-- All month-name alternatives that match at `s`, keeping list order. -/
def nameAlts (names : List (Nat × List Char)) (s : List Char) :
    List (Nat × List Char) :=
  names.filterMap (fun p => (matchNameCI p.2 s).map (fun r => (p.1, r)))

/-- The `%b` month abbreviations, in `TimeRE` order. -/
def monthAbbrs : List (Nat × List Char) :=
  [(1, "jan".data), (2, "feb".data), (3, "mar".data), (4, "apr".data),
   (5, "may".data), (6, "jun".data), (7, "jul".data), (8, "aug".data),
   (9, "sep".data), (10, "oct".data), (11, "nov".data), (12, "dec".data)]

/-- The `%B` full month names, in `TimeRE` order (sorted by length,
longest first, stable). -/
def monthFulls : List (Nat × List Char) :=
  [(9, "september".data), (2, "february".data), (11, "november".data),
   (12, "december".data), (1, "january".data), (10, "october".data),
   (8, "august".data), (3, "march".data), (4, "april".data),
   (6, "june".data), (7, "july".data), (5, "may".data)]

/-- `datetime.strptime(s, "%d" sep "%m" sep "%Y")` with a one-character
separator; the whole string must be consumed. -/
def strptimeNumDMY (sep : Char) (s : List Char) : Option PyDate :=
  firstSome (dAlts s) (fun dr =>
    match dr.2 with
    | c :: r2 =>
      if c = sep then
        firstSome (mAlts r2) (fun mr =>
          match mr.2 with
          | c2 :: r4 =>
            if c2 = sep then
              match y4 r4 with
              | some (yv, r5) => if r5 = [] then mkDate yv mr.1 dr.1 else none
              | none => none
            else none
          | [] => none)
      else none
    | [] => none)

/-- `datetime.strptime(s, "%d-%b-%Y")` / `"%d-%B-%Y"` given the name table. -/
def strptimeDnameY (names : List (Nat × List Char)) (s : List Char) :
    Option PyDate :=
  firstSome (dAlts s) (fun dr =>
    match dr.2 with
    | '-' :: r2 =>
      firstSome (nameAlts names r2) (fun mr =>
        match mr.2 with
        | '-' :: r4 =>
          match y4 r4 with
          | some (yv, r5) => if r5 = [] then mkDate yv mr.1 dr.1 else none
          | none => none
        | _ => none)
    | _ => none)

/-- `datetime.strptime(s, "%Y-%m-%d")`. -/
def strptimeYMD (s : List Char) : Option PyDate :=
  match y4 s with
  | some (yv, r1) =>
    match r1 with
    | '-' :: r2 =>
      firstSome (mAlts r2) (fun mr =>
        match mr.2 with
        | '-' :: r4 =>
          firstSome (dAlts r4) (fun dr =>
            if dr.2 = [] then mkDate yv mr.1 dr.1 else none)
        | _ => none)
    | _ => none
  | none => none

/-- Two-digit zero padding (`%d`, `%m`, `%y`). -/
def pad2 (n : Int) : List Char :=
  if n < 10 then '0' :: natChars n.toNat else natChars n.toNat

/-- `dt.strftime("%d/%m/%Y")`. -/
def strftimeDMY (dt : PyDate) : List Char :=
  pad2 dt.d ++ ['/'] ++ pad2 dt.m ++ ['/'] ++ natChars dt.y.toNat

/-- Capitalized `%b` month abbreviations. -/
def monthAbbrsCap : List (List Char) :=
  ["Jan".data, "Feb".data, "Mar".data, "Apr".data, "May".data, "Jun".data,
   "Jul".data, "Aug".data, "Sep".data, "Oct".data, "Nov".data, "Dec".data]

/-- `dt.strftime("%b-%y")`. -/
def strftimeBy (dt : PyDate) : List Char :=
  (monthAbbrsCap.getD (dt.m.toNat - 1) []) ++ ['-'] ++ pad2 (dt.y.fmod 100)

/-! ### `dateutil.relativedelta(end, start)` (date part only) -/

/-- Lexicographic `date <` comparison. -/
def dateLtB (a b : PyDate) : Bool :=
  if a.y < b.y then true
  else if b.y < a.y then false
  else if a.m < b.m then true
  else if b.m < a.m then false
  else decide (a.d < b.d)

/-- `start + relativedelta(months=n)`: month arithmetic with the day
clamped to the target month's length. -/
def rdAddMonths (dt : PyDate) (n : Int) : PyDate :=
  let t := dt.y * 12 + (dt.m - 1) + n
  let y := t.fdiv 12
  let m := t.fmod 12 + 1
  ⟨y, m, min dt.d (daysInMonth y m)⟩

/-- The month-adjustment loop of `relativedelta.__init__` (it runs at most
one iteration for clamped month addition; the fuel is ample). -/
def rdMonthsAux (dt1 dt2 : PyDate) (useGt : Bool) (inc : Int) :
    Nat → Int → Int
  | 0, months => months
  | f + 1, months =>
    let dtm := rdAddMonths dt2 months
    let cond := if useGt then dateLtB dtm dt1 else dateLtB dt1 dtm
    if cond then rdMonthsAux dt1 dt2 useGt inc f (months + inc) else months

/-- Days before the first of month `m` in year `y`. -/
def daysBeforeMonth (y m : Int) : Int :=
  (if m = 1 then 0 else if m = 2 then 31 else if m = 3 then 59
   else if m = 4 then 90 else if m = 5 then 120 else if m = 6 then 151
   else if m = 7 then 181 else if m = 8 then 212 else if m = 9 then 243
   else if m = 10 then 273 else if m = 11 then 304 else 334)
  + (if 2 < m && isLeap y then 1 else 0)

/-- `date.toordinal()` (proleptic Gregorian day number). -/
def dateOrd (dt : PyDate) : Int :=
  365 * (dt.y - 1) + (dt.y - 1).fdiv 4 - (dt.y - 1).fdiv 100 +
    (dt.y - 1).fdiv 400 + daysBeforeMonth dt.y dt.m + dt.d

/-- `relativedelta(dt1, dt2)` restricted to what the code reads:
`(years * 12 + months, days)`. -/
def rdDelta (dt1 dt2 : PyDate) : Int × Int :=
  let months0 := (dt1.y - dt2.y) * 12 + (dt1.m - dt2.m)
  let useGt := dateLtB dt1 dt2
  let inc : Int := if useGt then 1 else -1
  let months := rdMonthsAux dt1 dt2 useGt inc 48 months0
  let dtm := rdAddMonths dt2 months
  (months, dateOrd dt1 - dateOrd dtm)

/-! ### `BaseParser` utilities (`backend/parsers/base_parser.py`) -/

/-- The static `GST_STATE_CODES` table. -/
def GST_STATE_CODES : List (List Char × List Char) :=
  [("01".data, "Jammu & Kashmir".data), ("02".data, "Himachal Pradesh".data),
   ("03".data, "Punjab".data), ("04".data, "Chandigarh".data),
   ("05".data, "Uttarakhand".data), ("06".data, "Haryana".data),
   ("07".data, "Delhi".data), ("08".data, "Rajasthan".data),
   ("09".data, "Uttar Pradesh".data), ("10".data, "Bihar".data),
   ("11".data, "Sikkim".data), ("12".data, "Arunachal Pradesh".data),
   ("13".data, "Nagaland".data), ("14".data, "Manipur".data),
   ("15".data, "Mizoram".data), ("16".data, "Tripura".data),
   ("17".data, "Meghalaya".data), ("18".data, "Assam".data),
   ("19".data, "West Bengal".data), ("20".data, "Jharkhand".data),
   ("21".data, "Odisha".data), ("22".data, "Chhattisgarh".data),
   ("23".data, "Madhya Pradesh".data), ("24".data, "Gujarat".data),
   ("25".data, "Daman & Diu".data), ("26".data, "Dadra & Nagar Haveli".data),
   ("27".data, "Maharashtra".data), ("28".data, "Andhra Pradesh".data),
   ("29".data, "Karnataka".data), ("30".data, "Goa".data),
   ("31".data, "Lakshadweep".data), ("32".data, "Kerala".data),
   ("33".data, "Tamil Nadu".data), ("34".data, "Puducherry".data),
   ("35".data, "Andaman & Nicobar Islands".data), ("36".data, "Telangana".data),
   ("37".data, "Andhra Pradesh (New)".data), ("38".data, "Ladakh".data)]

/-- `BaseParser.get_state_from_gst`: "" for an absent or too-short id,
otherwise the table entry for the first two characters ("" if unmapped). -/
def get_state_from_gst : Option (List Char) → List Char
  | none => []
  | some g =>
    if g.length < 2 then []
    else (GST_STATE_CODES.lookup (g.take 2)).getD []

/-- `BaseParser.extract_field`: first match of the pattern, trimmed capture
of the requested group, `None` if no match. -/
def extract_field (text : List Char) (r : RE) (group : Nat) :
    Option (List Char) :=
  match reSearch r text with
  | some caps => some (pyStrip (grpGet caps group))
  | none => none

/-- `BaseParser.clean_amount`: remove commas; "" for `None` or "". -/
def clean_amount : Option (List Char) → List Char
  | none => []
  | some s => if s = [] then [] else dropCommas s

/-- `BaseParser.format_date`: try the six formats in order, reformat the
first success as `DD/MM/YYYY`; otherwise return the input with dots
replaced by slashes.  "" for `None` or "". -/
def format_date : Option (List Char) → List Char
  | none => []
  | some s =>
    if s = [] then []
    else
      let t := pyStrip s
      match strptimeNumDMY '.' t with
      | some dt => strftimeDMY dt
      | none =>
      match strptimeNumDMY '-' t with
      | some dt => strftimeDMY dt
      | none =>
      match strptimeNumDMY '/' t with
      | some dt => strftimeDMY dt
      | none =>
      match strptimeDnameY monthAbbrs t with
      | some dt => strftimeDMY dt
      | none =>
      match strptimeDnameY monthFulls t with
      | some dt => strftimeDMY dt
      | none =>
      match strptimeYMD t with
      | some dt => strftimeDMY dt
      | none => dotsToSlashes s

/-- The month-count-to-label mapping of `calculate_billing_frequency`. -/
def freqLabel (total : Int) : List Char :=
  if total ≤ 1 then "Monthly".data
  else if total ≤ 3 then "Quarterly".data
  else if total ≤ 6 then "Half-Yearly".data
  else if total ≤ 12 then "Yearly".data
  else intChars total ++ " Months".data

/-- `BaseParser.calculate_billing_frequency`. -/
def calculate_billing_frequency (from_date to_date : List Char) : List Char :=
  if from_date = [] ∨ to_date = [] then []
  else
    match strptimeNumDMY '/' from_date, strptimeNumDMY '/' to_date with
    | some s, some e =>
      let md := rdDelta e s
      freqLabel (md.1 + (if 0 < md.2 then 1 else 0))
    | _, _ => []

/-- The period separators of `BaseParser.parse_invoice_period`, in trial
order: `" - "`, `" to "`, `"-"`, the en-dash. -/
def periodSeps : List (List Char) :=
  [" - ".data, " to ".data, "-".data, "–".data]

/-- `BaseParser.parse_invoice_period`: split on the first separator
present, normalize both sides with `format_date`, and derive the billing
frequency; `("", "", "")` when the input is absent/empty or no separator
occurs. -/
def parse_invoice_period : Option (List Char) → List Char × List Char × List Char
  | none => ([], [], [])
  | some s =>
    if s = [] then ([], [], [])
    else
      let fd :=
        match periodSeps.find? (fun sep => containsSub sep s) with
        | some sep =>
          match pySplit1 sep s with
          | some ab => (format_date (some (pyStrip ab.1)),
                        format_date (some (pyStrip ab.2)))
          | none => ([], [])
        | none => ([], [])
      (fd.1, fd.2, calculate_billing_frequency fd.1 fd.2)

/-- `BaseParser.generate_ledger_name`. -/
def generate_ledger_name (period_from period_to : List Char) : List Char :=
  if period_from = [] ∨ period_to = [] then "Bulk SMS Charges".data
  else
    match strptimeNumDMY '/' period_from, strptimeNumDMY '/' period_to with
    | some s, some e =>
      "Bulk SMS Charges - ".data ++ strftimeBy s ++ " to ".data ++ strftimeBy e
    | _, _ => "Bulk SMS Charges".data

/-! ### Template detector (`backend/services/invoice_detector.py`) -/

/-- `detect_invoice_type`: classify the text by marker phrases, checked on
the uppercased text in priority order. -/
def detect_invoice_type (text : List Char) : List Char :=
  let tu := pyUpper text
  if containsSub "TAX INVOICE (ORIGINAL)".data tu &&
     containsSub "ACCOUNT NUMBER".data tu then "cloudxp".data
  else if containsSub "RELIANCE JIO INFOCOMM LIMITED".data tu &&
          containsSub "ORIGINAL FOR RECIPIENT".data tu then "rjil".data
  else if containsSub "JIO THINGS LIMITED".data tu then "jtl".data
  else "unknown".data

/-! ### The canonical record returned by every `parse` -/

/-- The dictionary returned by each parser's `parse` (all 23 keys). -/
structure TallyRecord where
  invoice_no : List Char
  invoice_date : List Char
  gst_registration : List Char
  gst_state : List Char
  party_customer : List Char
  order_no : List Char
  order_date : List Char
  invoice_period_from : List Char
  invoice_period_to : List Char
  billing_frequency : List Char
  tds_applicable : List Char
  gst_tds_applicable : List Char
  ledger_name : List Char
  submitted_qty : List Char
  submitted_rate : List Char
  dlt_qty : List Char
  delivered_qty : List Char
  delivered_rate : List Char
  amount : List Char
  cgst : List Char
  sgst : List Char
  total_amount : List Char
  remarks : List Char
deriving DecidableEq

/-- The record every parser produces on input text with no matches. -/
def defaultRecord : TallyRecord where
  invoice_no := []
  invoice_date := []
  gst_registration := []
  gst_state := []
  party_customer := []
  order_no := []
  order_date := []
  invoice_period_from := []
  invoice_period_to := []
  billing_frequency := []
  tds_applicable := "Yes".data
  gst_tds_applicable := "No".data
  ledger_name := "Bulk SMS Charges".data
  submitted_qty := []
  submitted_rate := []
  dlt_qty := []
  delivered_qty := []
  delivered_rate := []
  amount := []
  cgst := []
  sgst := []
  total_amount := []
  remarks := []

/-- The remarks cleanup shared by all three parsers:
`re.sub(r'^Bulk\s*SMS\s*Service\s*[-:]\s*', '', remarks, flags=I)` followed
by `.strip().upper()` (the `^`-anchored pattern can only replace a prefix). -/
def remarksClean (r : Option (List Char)) : List Char :=
  match r with
  | none => []
  | some s =>
    if s = [] then []
    else
      let subbed :=
        match reMatch0 (cat [litI "Bulk", rS, litI "SMS", rS, litI "Service",
                             rS, .cls (fun c => c = '-' || c = ':'), rS]) s with
        | some nc => s.drop nc.1
        | none => s
      pyUpper (pyStrip subbed)

/-- The remarks pattern `[Rr]emarks?\s*:?\s*([^\n]+)` shared by all three
parsers (the extractor compiles it with IGNORECASE anyway). -/
def remarksRE : RE :=
  cat [chI 'r', litI "emark", rOpt 's', rS, rOpt ':', rS,
       .grp 1 (.rep isNotNL 1 none false)]

/-! ### `CloudXPParser.parse` (`backend/parsers/cloudxp_parser.py`) -/

/-- `Invoice\s*Number\s*:?\s*([A-Z0-9]+)` -/
def cxInvoiceNoRE : RE :=
  cat [litI "Invoice", rS, litI "Number", rS, rOpt ':', rS,
       .grp 1 (.rep isAZ09 1 none false)]

/-- `\d{1,2}[-./]\w{3}[-./]\d{4}|\d{1,2}[-./]\d{1,2}[-./]\d{4}` -/
def dmyAltRE : RE :=
  .alt (cat [.rep isDigitC 1 (some 2) false, .cls isDMS,
             .rep isWordC 3 (some 3) false, .cls isDMS,
             .rep isDigitC 4 (some 4) false])
       (cat [.rep isDigitC 1 (some 2) false, .cls isDMS,
             .rep isDigitC 1 (some 2) false, .cls isDMS,
             .rep isDigitC 4 (some 4) false])

/-- `Invoice\s*Date\s*:?\s*(...)` -/
def cxInvoiceDateRE : RE :=
  cat [litI "Invoice", rS, litI "Date", rS, rOpt ':', rS, .grp 1 dmyAltRE]

/-- `GST\s*Registration\s*Number\s*:?\s*([A-Z0-9]+)` -/
def cxGstRE : RE :=
  cat [litI "GST", rS, litI "Registration", rS, litI "Number", rS, rOpt ':',
       rS, .grp 1 (.rep isAZ09 1 none false)]

/-- `Billed\s*To\s*:?\s*([^\n]+)` -/
def cxBilledToRE : RE :=
  cat [litI "Billed", rS, litI "To", rS, rOpt ':', rS,
       .grp 1 (.rep isNotNL 1 none false)]

/-- `[A-Z0-9/\s]` under IGNORECASE -/
def isPOChar (c : Char) : Bool := c.isAlpha || c.isDigit || c = '/' || pyIsSpace c

/-- `PO\s*Number\s*:?\s*([A-Z0-9/\s]+?)(?:\s*PO\s*Date|\s*\n|$)` -/
def cxPONoRE : RE :=
  cat [litI "PO", rS, litI "Number", rS, rOpt ':', rS,
       .grp 1 (.rep isPOChar 1 none true),
       .alt (cat [rS, litI "PO", rS, litI "Date"])
            (.alt (cat [rS, chE '\n']) .eol)]

/-- `PO\s*Date\s*:?\s*(...)` -/
def cxPODateRE : RE :=
  cat [litI "PO", rS, litI "Date", rS, rOpt ':', rS, .grp 1 dmyAltRE]

/-- `Invoice\s*Period\s*:?\s*(\d{1,2}[-./]\w{3,}[-./]\d{4}\s*(?:to|-)\s*\d{1,2}[-./]\w{3,}[-./]\d{4})` -/
def cxPeriodRE : RE :=
  cat [litI "Invoice", rS, litI "Period", rS, rOpt ':', rS,
       .grp 1 (cat [.rep isDigitC 1 (some 2) false, .cls isDMS,
                    .rep isWordC 3 none false, .cls isDMS,
                    .rep isDigitC 4 (some 4) false, rS,
                    .alt (litI "to") (chE '-'), rS,
                    .rep isDigitC 1 (some 2) false, .cls isDMS,
                    .rep isWordC 3 none false, .cls isDMS,
                    .rep isDigitC 4 (some 4) false])]

/-- The shared tail `\s*\n\s*\d+\s+(?:SMS\s+Service|Bulk\s+SMS)\s+(\d+)\s+([\d,]+\.?\d*)\s+([\d.]+)\s+([\d,]+\.?\d*)`
of the two usage-table patterns. -/
def cxUsageTail : RE :=
  cat [rS, chE '\n', rS, .rep isDigitC 1 none false, rS1,
       .alt (cat [litI "SMS", rS1, litI "Service"])
            (cat [litI "Bulk", rS1, litI "SMS"]),
       rS1, .grp 1 (.rep isDigitC 1 none false),
       rS1, .grp 2 numRE,
       rS1, .grp 3 (.rep isDigDot 1 none false),
       rS1, .grp 4 numRE]

/-- `Delivered\s+Segment\s+Charges?` followed by the usage tail. -/
def cxDeliveredRE : RE :=
  cat [litI "Delivered", rS1, litI "Segment", rS1, litI "Charge", rOpt 's',
       cxUsageTail]

/-- `Submitted\s+Segment\s+DLT` followed by the usage tail. -/
def cxSubmittedRE : RE :=
  cat [litI "Submitted", rS1, litI "Segment", rS1, litI "DLT", cxUsageTail]

/-- `Total\s*Amount\s*:?\s*([\d,]+\.?\d*)` -/
def cxAmountRE : RE :=
  cat [litI "Total", rS, litI "Amount", rS, rOpt ':', rS, .grp 1 numRE]

/-- `Total\s*Amount\s+[\d,]+\.?\d*\s+([\d,]+\.?\d*)` -/
def cxAmount2RE : RE :=
  cat [litI "Total", rS, litI "Amount", rS1, numRE, rS1, .grp 1 numRE]

/-- `CGST\s*@?\s*\d+%?\s+([\d,]+\.?\d*)` -/
def cxCgstRE : RE :=
  cat [litI "CGST", rS, rOpt '@', rS, .rep isDigitC 1 none false, rOpt '%',
       rS1, .grp 1 numRE]

/-- `SGST\s*@?\s*\d+%?\s+([\d,]+\.?\d*)` -/
def cxSgstRE : RE :=
  cat [litI "SGST", rS, rOpt '@', rS, .rep isDigitC 1 none false, rOpt '%',
       rS1, .grp 1 numRE]

/-- `Grand\s*Total\s*\(?\s*Including\s*Tax\s*\)?\s*:?\s*([\d,]+\.?\d*)` -/
def cxGrandRE : RE :=
  cat [litI "Grand", rS, litI "Total", rS, rOpt '(', rS, litI "Including",
       rS, litI "Tax", rS, rOpt ')', rS, rOpt ':', rS, .grp 1 numRE]

/-- `CloudXPParser.parse`. -/
def CloudXPParse (text _filename : List Char) : TallyRecord :=
  let invoice_no := extract_field text cxInvoiceNoRE 1
  let invoice_date_raw := extract_field text cxInvoiceDateRE 1
  let invoice_date := format_date invoice_date_raw
  let gst_registration := extract_field text cxGstRE 1
  let gst_state := get_state_from_gst gst_registration
  let party_customer0 := extract_field text cxBilledToRE 1
  let party_customer :=
    match party_customer0 with
    | some p => if p = [] then p else pyStrip (firstPart (splitChar '\n' p))
    | none => []
  let order_no0 := extract_field text cxPONoRE 1
  let order_no :=
    match order_no0 with
    | some o => if o = [] then o else pyStrip o
    | none => []
  let order_date_raw := extract_field text cxPODateRE 1
  let order_date := format_date order_date_raw
  let invoice_period := extract_field text cxPeriodRE 1
  let pp := parse_invoice_period invoice_period
  let ledger_name := generate_ledger_name pp.1 pp.2.1
  let deliveredM := reSearch cxDeliveredRE text
  let delivered_qty :=
    match deliveredM with
    | some g => qtyClean (grpGet g 2)
    | none => []
  let delivered_rate :=
    match deliveredM with
    | some g => grpGet g 3
    | none => []
  let submittedM := reSearch cxSubmittedRE text
  let submitted_qty :=
    match submittedM with
    | some g => qtyClean (grpGet g 2)
    | none => []
  let submitted_rate :=
    match submittedM with
    | some g => grpGet g 3
    | none => []
  let dlt_qty := submitted_qty
  let amount0 := extract_field text cxAmountRE 1
  let amount1 :=
    match amount0 with
    | some a => if a = [] then extract_field text cxAmount2RE 1 else amount0
    | none => extract_field text cxAmount2RE 1
  let amount := clean_amount amount1
  let cgst := clean_amount (extract_field text cxCgstRE 1)
  let sgst := clean_amount (extract_field text cxSgstRE 1)
  let total_amount := clean_amount (extract_field text cxGrandRE 1)
  let remarks := remarksClean (extract_field text remarksRE 1)
  { invoice_no := invoice_no.getD []
    invoice_date := invoice_date
    gst_registration := gst_registration.getD []
    gst_state := gst_state
    party_customer := party_customer
    order_no := order_no
    order_date := order_date
    invoice_period_from := pp.1
    invoice_period_to := pp.2.1
    billing_frequency := pp.2.2
    tds_applicable := "Yes".data
    gst_tds_applicable := "No".data
    ledger_name := ledger_name
    submitted_qty := submitted_qty
    submitted_rate := submitted_rate
    dlt_qty := dlt_qty
    delivered_qty := delivered_qty
    delivered_rate := delivered_rate
    amount := amount
    cgst := cgst
    sgst := sgst
    total_amount := total_amount
    remarks := remarks }

/-! ### `RJILParser.parse` (`backend/parsers/rjil_parser.py`) -/

/-- `Invoice\s*no\.?\s*:?\s*(\d+)` -/
def rjInvoiceNoRE : RE :=
  cat [litI "Invoice", rS, litI "no", rOpt '.', rS, rOpt ':', rS,
       .grp 1 (.rep isDigitC 1 none false)]

/-- `\d{1,2}[./]\d{1,2}[./]\d{4}` -/
def numDateRE : RE :=
  cat [.rep isDigitC 1 (some 2) false, .cls isDotSlash,
       .rep isDigitC 1 (some 2) false, .cls isDotSlash,
       .rep isDigitC 4 (some 4) false]

/-- `Invoice\s*date\s*:?\s*(\d{1,2}[./]\d{1,2}[./]\d{4})` -/
def rjInvoiceDateRE : RE :=
  cat [litI "Invoice", rS, litI "date", rS, rOpt ':', rS, .grp 1 numDateRE]

/-- `GSTIN\s+([A-Z0-9]{15})` (shared by RJIL and JTL) -/
def gstinRE : RE :=
  cat [litI "GSTIN", rS1, .grp 1 (.rep isAZ09 15 (some 15) false)]

/-- `[A-Z0-9\s]` under IGNORECASE -/
def isAZ09S (c : Char) : Bool := c.isAlpha || c.isDigit || pyIsSpace c

/-- `Recipient\s+([A-Z][A-Z0-9\s]+)` — the per-line pattern of the RJIL
recipient scan. -/
def rjRecipLineRE : RE :=
  cat [litI "Recipient", rS1,
       .grp 1 (cat [.cls isAlphaC, .rep isAZ09S 1 none false])]

/-- `Recipient\s+([A-Z][A-Z0-9\s]+(?:LIMITED|LTD))` — the RJIL fallback. -/
def rjRecipFallbackRE : RE :=
  cat [litI "Recipient", rS1,
       .grp 1 (cat [.cls isAlphaC, .rep isAZ09S 1 none false,
                    .alt (litI "LIMITED") (litI "LTD")])]

/-- The blocklist comparison `name.upper() not in ["TAX INVOICE", "TAX", "INVOICE"]`. -/
def rjBlocked (name : List Char) : Bool :=
  pyUpper name = "TAX INVOICE".data || pyUpper name = "TAX".data ||
    pyUpper name = "INVOICE".data

/-- The line-by-line recipient scan of `RJILParser.parse`: skip page-header
lines, find a line starting with `Recipient`, extract and vet the name. -/
def rjRecipientScan : List (List Char) → Option (List Char)
  | [] => none
  | line :: rest =>
    let ls := pyStrip line
    if containsSub "FOR RECIPIENT".data (pyUpper ls) then rjRecipientScan rest
    else if containsSub "TAX INVOICE".data (pyUpper ls) &&
            containsSub "RECIPIENT".data (pyUpper ls) then rjRecipientScan rest
    else if startsWithL "Recipient".data ls then
      match reSearch rjRecipLineRE ls with
      | some caps =>
        let name := pyStrip (grpGet caps 1)
        if rjBlocked name then rjRecipientScan rest
        else if containsSub ",".data name then
          some (pyStrip (firstPart (splitChar ',' name)))
        else some name
      | none => rjRecipientScan rest
    else rjRecipientScan rest

/-- `PO\s*No\s*\.?\s*:?\s*([A-Z0-9]+)` -/
def rjPONoRE : RE :=
  cat [litI "PO", rS, litI "No", rS, rOpt '.', rS, rOpt ':', rS,
       .grp 1 (.rep isAZ09 1 none false)]

/-- `PO\s*Date\.?\s*:?\s*(\d{1,2}[./]\d{1,2}[./]\d{4})` -/
def rjPODateRE : RE :=
  cat [litI "PO", rS, litI "Date", rOpt '.', rS, rOpt ':', rS,
       .grp 1 numDateRE]

/-- The mojibake dash class `[-â€“]` of the RJIL period pattern (an
en-dash whose UTF-8 bytes were decoded as cp1252). -/
def isRjDash (c : Char) : Bool := c = '-' || c = 'â' || c = '€' || c = '“'

/-- `Invoice\s*period\s*:?\s*(\d{1,2}[./]\d{1,2}[./]\d{4}\s*[-â€“]\s*\d{1,2}[./]\d{1,2}[./]\d{4})` -/
def rjPeriodRE : RE :=
  cat [litI "Invoice", rS, litI "period", rS, rOpt ':', rS,
       .grp 1 (cat [numDateRE, rS, .cls isRjDash, rS, numDateRE])]

/-- `BULK\s*SMS\s+(\d+)\s+([\d,]+)\s+EA\s+([\d.]+)\s+([\d,]+\.?\d*)` -/
def rjBulkRE : RE :=
  cat [litI "BULK", rS, litI "SMS", rS1, .grp 1 (.rep isDigitC 1 none false),
       rS1, .grp 2 (.rep isDigComma 1 none false), rS1, litI "EA", rS1,
       .grp 3 (.rep isDigDot 1 none false), rS1, .grp 4 numRE]

/-- `Total\s*Amount\s*Excluding\s*Taxes\s*([\d,]+\.?\d*)` -/
def rjAmountRE : RE :=
  cat [litI "Total", rS, litI "Amount", rS, litI "Excluding", rS,
       litI "Taxes", rS, .grp 1 numRE]

/-- `CGST\s+[\d.]+\s*%?\s*([\d,]+\.?\d*)` -/
def rjCgstRE : RE :=
  cat [litI "CGST", rS1, .rep isDigDot 1 none false, rS, rOpt '%', rS,
       .grp 1 numRE]

/-- `SGST\s+[\d.]+\s*%?\s*([\d,]+\.?\d*)` -/
def rjSgstRE : RE :=
  cat [litI "SGST", rS1, .rep isDigDot 1 none false, rS, rOpt '%', rS,
       .grp 1 numRE]

/-- `Grand\s*Total\s*\(?\s*Including\s*GST\s*\)?\s*([\d,]+\.?\d*)` -/
def rjGrandRE : RE :=
  cat [litI "Grand", rS, litI "Total", rS, rOpt '(', rS, litI "Including",
       rS, litI "GST", rS, rOpt ')', rS, .grp 1 numRE]

/-- `RJILParser.parse`. -/
def RJILParse (text _filename : List Char) : TallyRecord :=
  let invoice_no := extract_field text rjInvoiceNoRE 1
  let invoice_date := format_date (extract_field text rjInvoiceDateRE 1)
  let gst_registration := extract_field text gstinRE 1
  let gst_state := get_state_from_gst gst_registration
  let party_customer0 := rjRecipientScan (splitChar '\n' text)
  let party_customer :=
    match party_customer0 with
    | some p => some p
    | none =>
      match reSearch rjRecipFallbackRE text with
      | some caps =>
        let name := pyStrip (grpGet caps 1)
        if rjBlocked name then none else some name
      | none => none
  let order_no := extract_field text rjPONoRE 1
  let order_date := format_date (extract_field text rjPODateRE 1)
  let invoice_period := extract_field text rjPeriodRE 1
  let pp := parse_invoice_period invoice_period
  let ledger_name := generate_ledger_name pp.1 pp.2.1
  let bulkM := reSearch rjBulkRE text
  let delivered_qty :=
    match bulkM with
    | some g => dropCommas (grpGet g 2)
    | none => []
  let submitted_qty : List Char := []
  let dlt_qty : List Char := []
  let amount := clean_amount (extract_field text rjAmountRE 1)
  let cgst := clean_amount (extract_field text rjCgstRE 1)
  let sgst := clean_amount (extract_field text rjSgstRE 1)
  let total_amount := clean_amount (extract_field text rjGrandRE 1)
  let remarks := remarksClean (extract_field text remarksRE 1)
  { invoice_no := invoice_no.getD []
    invoice_date := invoice_date
    gst_registration := gst_registration.getD []
    gst_state := gst_state
    party_customer := party_customer.getD []
    order_no := order_no.getD []
    order_date := order_date
    invoice_period_from := pp.1
    invoice_period_to := pp.2.1
    billing_frequency := pp.2.2
    tds_applicable := "Yes".data
    gst_tds_applicable := "No".data
    ledger_name := ledger_name
    submitted_qty := submitted_qty
    submitted_rate := []
    dlt_qty := dlt_qty
    delivered_qty := delivered_qty
    delivered_rate := []
    amount := amount
    cgst := cgst
    sgst := sgst
    total_amount := total_amount
    remarks := remarks }

/-! ### `JTLParser.parse` (`backend/parsers/jtl_parser.py`) -/

/-- `Invoice\s*No\.?\s*:?\s*([A-Z0-9]+)` -/
def jtInvoiceNoRE : RE :=
  cat [litI "Invoice", rS, litI "No", rOpt '.', rS, rOpt ':', rS,
       .grp 1 (.rep isAZ09 1 none false)]

/-- `Date\s*:?\s*(\d{1,2}[./]\d{1,2}[./]\d{4})` -/
def jtDateRE : RE :=
  cat [litI "Date", rS, rOpt ':', rS, .grp 1 numDateRE]

/-- `[A-Z0-9\s&\-\.]` under IGNORECASE -/
def isJTName (c : Char) : Bool :=
  c.isAlpha || c.isDigit || pyIsSpace c || c = '&' || c = '-' || c = '.'

/-- `Recipient\s+(?!No)([A-Z][A-Z0-9\s&\-\.]+?)(?:\s+Date|\s+\d{1,2}[./]|\s+Invoice|\s*\n|\s+6-A|$)` -/
def jtRecipRE : RE :=
  cat [litI "Recipient", rS1, .nla (litI "No"),
       .grp 1 (cat [.cls isAlphaC, .rep isJTName 1 none true]),
       .alt (cat [rS1, litI "Date"])
            (.alt (cat [rS1, .rep isDigitC 1 (some 2) false, .cls isDotSlash])
                  (.alt (cat [rS1, litI "Invoice"])
                        (.alt (cat [rS, chE '\n'])
                              (.alt (cat [rS1, chE '6', chE '-', chI 'a'])
                                    .eol))))]

/-- `^\s*Recipient\s+(?!No)` — the line filter of JTL's fallback scan. -/
def jtRecipLineTestRE : RE :=
  cat [rS, litI "Recipient", rS1, .nla (litI "No")]

/-- `Recipient\s+([A-Z][A-Z0-9\s&\-\.]+)` — the extraction pattern of the
fallback scan. -/
def jtRecipLineRE : RE :=
  cat [litI "Recipient", rS1,
       .grp 1 (cat [.cls isAlphaC, .rep isJTName 1 none false])]

/-- The line-by-line fallback recipient scan of `JTLParser.parse`. -/
def jtRecipientScan : List (List Char) → Option (List Char)
  | [] => none
  | line :: rest =>
    match reMatch0 jtRecipLineTestRE line with
    | some _ =>
      match reSearch jtRecipLineRE line with
      | some caps =>
        let name := pyStrip (grpGet caps 1)
        if containsSub ",".data name then
          some (pyStrip (firstPart (splitChar ',' name)))
        else some name
      | none => jtRecipientScan rest
    | none => jtRecipientScan rest

/-- `ORN\s*:?\s*(\d+)` -/
def jtORNRE : RE :=
  cat [litI "ORN", rS, rOpt ':', rS, .grp 1 (.rep isDigitC 1 none false)]

/-- `[-–]` -/
def isDashEn (c : Char) : Bool := c = '-' || c = '–'

/-- `Invoice\s*Period\s*:?\s*(\d{1,2}[./]\d{1,2}[./]\d{4}\s*[-–]\s*\d{1,2}[./]\d{1,2}[./]\d{4})` -/
def jtPeriodRE : RE :=
  cat [litI "Invoice", rS, litI "Period", rS, rOpt ':', rS,
       .grp 1 (cat [numDateRE, rS, .cls isDashEn, rS, numDateRE])]

/-- `(?:SMS\s*#?\s*SCRUBBING|DLT\s*COUNT)\s+(\d+)\s+([\d,]+\.?\d*)\s+([\d.]+)\s+([\d,]+\.?\d*)` -/
def jtDltRE : RE :=
  cat [.alt (cat [litI "SMS", rS, rOpt '#', rS, litI "SCRUBBING"])
            (cat [litI "DLT", rS, litI "COUNT"]),
       rS1, .grp 1 (.rep isDigitC 1 none false), rS1, .grp 2 numRE,
       rS1, .grp 3 (.rep isDigDot 1 none false), rS1, .grp 4 numRE]

/-- `BSS\s*SERVICE\s*CHARGE\s+(\d+)\s+([\d,]+\.?\d*)\s+([\d.]+)\s+([\d,]+\.?\d*)` -/
def jtBssRE : RE :=
  cat [litI "BSS", rS, litI "SERVICE", rS, litI "CHARGE",
       rS1, .grp 1 (.rep isDigitC 1 none false), rS1, .grp 2 numRE,
       rS1, .grp 3 (.rep isDigDot 1 none false), rS1, .grp 4 numRE]

/-- `Total\s*Taxable\s*value\s*([\d,]+\.?\d*)` -/
def jtAmountRE : RE :=
  cat [litI "Total", rS, litI "Taxable", rS, litI "value", rS, .grp 1 numRE]

/-- `CGST\s*@?\s*\d+\s*%?\s*([\d,]+\.?\d*)` -/
def jtCgstRE : RE :=
  cat [litI "CGST", rS, rOpt '@', rS, .rep isDigitC 1 none false, rS,
       rOpt '%', rS, .grp 1 numRE]

/-- `SGST\s*@?\s*\d+\s*%?\s*([\d,]+\.?\d*)` -/
def jtSgstRE : RE :=
  cat [litI "SGST", rS, rOpt '@', rS, .rep isDigitC 1 none false, rS,
       rOpt '%', rS, .grp 1 numRE]

/-- `Total\s*\(\s*Value\s*is\s*inclusive\s*of\s*Tax\s*\)\s*([\d,]+\.?\d*)` -/
def jtTotalRE : RE :=
  cat [litI "Total", rS, chE '(', rS, litI "Value", rS, litI "is", rS,
       litI "inclusive", rS, litI "of", rS, litI "Tax", rS, chE ')', rS,
       .grp 1 numRE]

/-- `JTLParser.parse`. -/
def JTLParse (text _filename : List Char) : TallyRecord :=
  let invoice_no := extract_field text jtInvoiceNoRE 1
  let invoice_date := format_date (extract_field text jtDateRE 1)
  let gst_registration := extract_field text gstinRE 1
  let gst_state := get_state_from_gst gst_registration
  let party_customer0 :=
    match reSearch jtRecipRE text with
    | some caps => some (pyStrip (grpGet caps 1))
    | none => none
  let party_customer :=
    match party_customer0 with
    | some p => if p = [] then jtRecipientScan (splitChar '\n' text) else some p
    | none => jtRecipientScan (splitChar '\n' text)
  let order_no := extract_field text jtORNRE 1
  let order_date : List Char := []
  let invoice_period := extract_field text jtPeriodRE 1
  let pp := parse_invoice_period invoice_period
  let ledger_name := generate_ledger_name pp.1 pp.2.1
  let dltM := reSearch jtDltRE text
  let submitted_qty :=
    match dltM with
    | some g => qtyClean (grpGet g 2)
    | none => []
  let dlt_qty := submitted_qty
  let bssM := reSearch jtBssRE text
  let delivered_qty :=
    match bssM with
    | some g => qtyClean (grpGet g 2)
    | none => []
  let amount := clean_amount (extract_field text jtAmountRE 1)
  let cgst := clean_amount (extract_field text jtCgstRE 1)
  let sgst := clean_amount (extract_field text jtSgstRE 1)
  let total_amount := clean_amount (extract_field text jtTotalRE 1)
  let remarks := remarksClean (extract_field text remarksRE 1)
  { invoice_no := invoice_no.getD []
    invoice_date := invoice_date
    gst_registration := gst_registration.getD []
    gst_state := gst_state
    party_customer := party_customer.getD []
    order_no := order_no.getD []
    order_date := order_date
    invoice_period_from := pp.1
    invoice_period_to := pp.2.1
    billing_frequency := pp.2.2
    tds_applicable := "Yes".data
    gst_tds_applicable := "No".data
    ledger_name := ledger_name
    submitted_qty := submitted_qty
    submitted_rate := []
    dlt_qty := dlt_qty
    delivered_qty := delivered_qty
    delivered_rate := []
    amount := amount
    cgst := cgst
    sgst := sgst
    total_amount := total_amount
    remarks := remarks }

/-! ### Spec-side definitions and test fixtures -/

/-- Modelled from the spec's words (§4.3): "Computes calendar month
difference (years×12 + months) between the two dates; if the end date's
day-of-month exceeds the start's (a nonzero remainder day), adds one extra
month."  To be compared with the loop-based `rdDelta` computation the code
performs. -/
def specTotalMonths (s e : PyDate) : Int :=
  (e.y - s.y) * 12 + (e.m - s.m) + (if s.d < e.d then 1 else 0)

/-- A calendar-valid date (what a successful `strptime` produces). -/
def validDate (dt : PyDate) : Prop :=
  1 ≤ dt.y ∧ 1 ≤ dt.m ∧ dt.m ≤ 12 ∧ 1 ≤ dt.d ∧ dt.d ≤ daysInMonth dt.y dt.m

/-- The Template A end-to-end fixture of the spec (§8): the marker header
plus the labelled lines and the two usage-table sections. -/
def cxFixture : List Char :=
  ("TAX INVOICE (ORIGINAL)\nAccount Number: 12345\nInvoice Number: CXP2025001234\nInvoice Date: 15.11.2025\nGST Registration Number: 27AABCN1234Q1ZM\nDelivered Segment Charges\n1 SMS Service 998599 98,81,102.00 0.090000 8,89,299.18\nSubmitted Segment DLT\n2 SMS Service 998599 1,23,94,994.00 0.020000 2,47,899.88\n").data

/-- A Template A text that still contains every line of `cxFixture` but is
preceded by another `Invoice Number:` line. -/
def cxShadowed : List Char := "Invoice Number: AAA111\n".data ++ cxFixture

/-! ### Theorems -/

/-- **C6**: for every filename, each of the three template extractors
applied to the empty input text returns the all-default record: every
field `""` except `tds_applicable = "Yes"`, `gst_tds_applicable = "No"`
and `ledger_name = "Bulk SMS Charges"`. -/
theorem c6_empty_text_default_record (filename : List Char) :
    CloudXPParse [] filename = defaultRecord ∧
    RJILParse [] filename = defaultRecord ∧
    JTLParse [] filename = defaultRecord :=
  ⟨rfl, rfl, rfl⟩

/-- **C9**: the Template C (JTL) extractor's `order_date` field is `""`
for every input text and filename. -/
theorem c9_jtl_order_date_empty (text filename : List Char) :
    (JTLParse text filename).order_date = [] := rfl

/-- **C10**: in every record any of the three extractors returns,
`dlt_qty` equals `submitted_qty` (copied from it in CloudXP and JTL,
both `""` in RJIL). -/
theorem c10_dlt_qty_eq_submitted_qty (text filename : List Char) :
    (CloudXPParse text filename).dlt_qty =
      (CloudXPParse text filename).submitted_qty ∧
    (JTLParse text filename).dlt_qty = (JTLParse text filename).submitted_qty ∧
    (RJILParse text filename).dlt_qty = (RJILParse text filename).submitted_qty :=
  ⟨rfl, rfl, rfl⟩

set_option maxRecDepth 100000

/-- **C2** (amended to the fixture text): on the Template A fixture, the
record has the six field values of the spec's end-to-end scenario. -/
theorem c2_cloudxp_fixture_fields (filename : List Char) :
    (CloudXPParse cxFixture filename).invoice_no = "CXP2025001234".data ∧
    (CloudXPParse cxFixture filename).invoice_date = "15/11/2025".data ∧
    (CloudXPParse cxFixture filename).gst_state = "Maharashtra".data ∧
    (CloudXPParse cxFixture filename).delivered_qty = "9881102".data ∧
    (CloudXPParse cxFixture filename).delivered_rate = "0.090000".data ∧
    (CloudXPParse cxFixture filename).submitted_qty = "12394994".data :=
  ⟨rfl, rfl, rfl, rfl, rfl, rfl⟩

/-- **C2** counterexample: `cxShadowed` contains every line the claim
quantifies over (and is detected as Template A), yet its `invoice_no` is
the earlier `"AAA111"`, not `"CXP2025001234"` — `re.search` uses the first
match in document order, so the claim is false for *arbitrary* texts
containing those lines. -/
theorem c2_arbitrary_superset_fails :
    containsSub "Invoice Number: CXP2025001234".data cxShadowed = true ∧
    containsSub "Invoice Date: 15.11.2025".data cxShadowed = true ∧
    containsSub "GST Registration Number: 27AABCN1234Q1ZM".data cxShadowed = true ∧
    containsSub "Delivered Segment Charges\n1 SMS Service 998599 98,81,102.00 0.090000 8,89,299.18".data cxShadowed = true ∧
    containsSub "Submitted Segment DLT\n2 SMS Service 998599 1,23,94,994.00 0.020000 2,47,899.88".data cxShadowed = true ∧
    detect_invoice_type cxShadowed = "cloudxp".data ∧
    (CloudXPParse cxShadowed []).invoice_no = "AAA111".data ∧
    (CloudXPParse cxShadowed []).invoice_no ≠ "CXP2025001234".data :=
  ⟨rfl, rfl, rfl, rfl, rfl, rfl, rfl, by decide⟩

/-- `strptime` never accepts the empty string. -/
theorem strptimeNumDMY_nil (sep : Char) : strptimeNumDMY sep [] = none := rfl

/-- **C7**: `get_state_from_gst` returns `""` for an absent id or one
shorter than 2 characters, and otherwise resolves the first two characters
through the static table, with `""` for unmapped prefixes; ids starting
with `"27"` give Maharashtra and `"07"` Delhi. -/
theorem c7_get_state_from_gst :
    get_state_from_gst none = [] ∧
    (∀ g : List Char, g.length < 2 → get_state_from_gst (some g) = []) ∧
    (∀ g : List Char, 2 ≤ g.length →
       get_state_from_gst (some g) = (GST_STATE_CODES.lookup (g.take 2)).getD []) ∧
    get_state_from_gst (some "27AABCN1234Q1ZM".data) = "Maharashtra".data ∧
    (∀ g : List Char, g.take 2 = "07".data →
       get_state_from_gst (some g) = "Delhi".data) ∧
    (∀ g : List Char, 2 ≤ g.length → GST_STATE_CODES.lookup (g.take 2) = none →
       get_state_from_gst (some g) = []) := by
  refine ⟨rfl, ?_, ?_, rfl, ?_, ?_⟩
  · intro g h
    simp [get_state_from_gst, h]
  · intro g h
    have : ¬ g.length < 2 := by omega
    simp [get_state_from_gst, this]
  · intro g h
    have hlen : ¬ g.length < 2 := by
      have := congrArg List.length h
      simp [List.length_take] at this
      omega
    simp [get_state_from_gst, hlen, h]
    rfl
  · intro g h hnone
    have : ¬ g.length < 2 := by omega
    simp [get_state_from_gst, this, hnone]

/-- Witness for `c7_get_state_from_gst` at concrete inputs. -/
theorem c7_get_state_from_gst_witness :
    get_state_from_gst (some "0".data) = [] ∧
    get_state_from_gst (some "07AAAAA".data) = "Delhi".data ∧
    get_state_from_gst (some "99ZZZ".data) = [] :=
  ⟨c7_get_state_from_gst.2.1 "0".data (by decide),
   c7_get_state_from_gst.2.2.2.2.1 "07AAAAA".data (by decide),
   c7_get_state_from_gst.2.2.2.2.2 "99ZZZ".data (by decide) (by decide)⟩

/-- **C8**: `generate_ledger_name` yields the fixed default when either
bound is empty or fails to parse as `DD/MM/YYYY`, and otherwise the
`"Bulk SMS Charges - {Mon-yy} to {Mon-yy}"` form. -/
theorem c8_generate_ledger_name :
    (∀ f t : List Char, f = [] ∨ t = [] →
       generate_ledger_name f t = "Bulk SMS Charges".data) ∧
    (∀ f t : List Char,
       strptimeNumDMY '/' f = none ∨ strptimeNumDMY '/' t = none →
       generate_ledger_name f t = "Bulk SMS Charges".data) ∧
    (∀ f t ds de, strptimeNumDMY '/' f = some ds →
       strptimeNumDMY '/' t = some de →
       generate_ledger_name f t =
         "Bulk SMS Charges - ".data ++ strftimeBy ds ++ " to ".data ++
           strftimeBy de) ∧
    generate_ledger_name "01/11/2025".data "30/11/2025".data =
      "Bulk SMS Charges - Nov-25 to Nov-25".data ∧
    generate_ledger_name [] [] = "Bulk SMS Charges".data := by
  refine ⟨?_, ?_, ?_, rfl, rfl⟩
  · intro f t h
    simp [generate_ledger_name, h]
  · intro f t h
    unfold generate_ledger_name
    split_ifs with hft
    · rfl
    · rcases h with h | h
      · rw [h]
      · cases hf : strptimeNumDMY '/' f
        · rfl
        · rw [h]
  · intro f t ds de hf ht
    have hfne : f ≠ [] := by
      intro h
      rw [h, strptimeNumDMY_nil] at hf
      exact Option.noConfusion hf
    have htne : t ≠ [] := by
      intro h
      rw [h, strptimeNumDMY_nil] at ht
      exact Option.noConfusion ht
    unfold generate_ledger_name
    rw [if_neg (by simp [hfne, htne]), hf, ht]

/-- Witness for `c8_generate_ledger_name` at concrete inputs. -/
theorem c8_generate_ledger_name_witness :
    generate_ledger_name "x".data [] = "Bulk SMS Charges".data ∧
    generate_ledger_name "bad".data "01/11/2025".data = "Bulk SMS Charges".data ∧
    generate_ledger_name "01/10/2025".data "31/12/2025".data =
      "Bulk SMS Charges - Oct-25 to Dec-25".data :=
  ⟨c8_generate_ledger_name.1 "x".data [] (Or.inr rfl),
   c8_generate_ledger_name.2.1 "bad".data "01/11/2025".data (Or.inl (by decide)),
   by
    have := c8_generate_ledger_name.2.2.1 "01/10/2025".data "31/12/2025".data
      ⟨2025, 10, 1⟩ ⟨2025, 12, 31⟩ (by decide) (by decide)
    rw [this]
    decide⟩

/-- **C4**: `format_date` returns `""` for `None`/empty input, parses the
six formats in priority order on the stripped input (first success is
reformatted as `DD/MM/YYYY`), and falls back to replacing every `.` by `/`
when none of the six formats parses; the three canonical renderings of
15 November 2025 all normalize to `"15/11/2025"`. -/
theorem c4_format_date :
    format_date none = [] ∧
    format_date (some []) = [] ∧
    format_date (some "15.11.2025".data) = "15/11/2025".data ∧
    format_date (some "15-Nov-2025".data) = "15/11/2025".data ∧
    format_date (some "2025-11-15".data) = "15/11/2025".data ∧
    (∀ s : List Char, s ≠ [] → strptimeNumDMY '.' (pyStrip s) = none →
       strptimeNumDMY '-' (pyStrip s) = none →
       strptimeNumDMY '/' (pyStrip s) = none →
       strptimeDnameY monthAbbrs (pyStrip s) = none →
       strptimeDnameY monthFulls (pyStrip s) = none →
       strptimeYMD (pyStrip s) = none →
       format_date (some s) = dotsToSlashes s) ∧
    (∀ (s : List Char) (dt : PyDate), s ≠ [] →
       strptimeNumDMY '.' (pyStrip s) = some dt →
       format_date (some s) = strftimeDMY dt) := by
  refine ⟨rfl, rfl, rfl, rfl, rfl, ?_, ?_⟩
  · intro s hne h1 h2 h3 h4 h5 h6
    simp only [format_date]
    rw [if_neg hne, h1, h2, h3, h4, h5, h6]
  · intro s dt hne h1
    simp only [format_date]
    rw [if_neg hne, h1]

/-- Witness for `c4_format_date` at concrete inputs. -/
theorem c4_format_date_witness :
    format_date (some "31.11.2025".data) = "31/11/2025".data ∧
    format_date (some " 5.1.2025 ".data) = "05/01/2025".data :=
  ⟨c4_format_date.2.2.2.2.2.1 "31.11.2025".data (by decide) (by decide)
     (by decide) (by decide) (by decide) (by decide) (by decide),
   c4_format_date.2.2.2.2.2.2 " 5.1.2025 ".data ⟨2025, 1, 5⟩ (by decide)
     (by decide)⟩

/-- **C5**: `parse_invoice_period` splits on the first separator of the
trial list `" - "`, `" to "`, `"-"`, dash found, normalizes each stripped
side with `format_date`, and derives the billing frequency from the two
normalized dates; an absent/empty input or one containing no separator
yields `("", "", "")`. -/
theorem c5_parse_invoice_period :
    parse_invoice_period none = ([], [], []) ∧
    parse_invoice_period (some []) = ([], [], []) ∧
    (∀ s : List Char, (∀ sep ∈ periodSeps, containsSub sep s = false) →
       parse_invoice_period (some s) = ([], [], [])) ∧
    (∀ (s sep a b : List Char), s ≠ [] →
       periodSeps.find? (fun q => containsSub q s) = some sep →
       pySplit1 sep s = some (a, b) →
       parse_invoice_period (some s) =
         (format_date (some (pyStrip a)), format_date (some (pyStrip b)),
          calculate_billing_frequency (format_date (some (pyStrip a)))
            (format_date (some (pyStrip b))))) ∧
    parse_invoice_period (some "01-Aug-2025 to 31-Aug-2025".data) =
      ("01/08/2025".data, "31/08/2025".data, "Monthly".data) := by
  refine ⟨rfl, rfl, ?_, ?_, by decide⟩
  · intro s hall
    have hfind : periodSeps.find? (fun q => containsSub q s) = none := by
      rw [List.find?_eq_none]
      intro q hq
      simp [hall q hq]
    by_cases hne : s = []
    · rw [hne]
      rfl
    · simp only [parse_invoice_period]
      rw [if_neg hne, hfind]
      simp
      rfl
  · intro s sep a b hne hfind hsplit
    simp only [parse_invoice_period]
    rw [if_neg hne, hfind]
    simp [hsplit]

/-- Witness for `c5_parse_invoice_period` at concrete inputs. -/
theorem c5_parse_invoice_period_witness :
    parse_invoice_period (some "hello world".data) = ([], [], []) ∧
    parse_invoice_period (some "01.11.2025 - 30.11.2025".data) =
      ("01/11/2025".data, "30/11/2025".data, "Monthly".data) :=
  ⟨c5_parse_invoice_period.2.2.1 "hello world".data (by decide),
   by
    have := c5_parse_invoice_period.2.2.2.1 "01.11.2025 - 30.11.2025".data
      " - ".data "01.11.2025".data "30.11.2025".data (by decide) (by decide)
      (by decide)
    rw [this]
    decide⟩

/-- **C1**: the detector always returns exactly one of the four
identifiers, characterized by the case-insensitive marker rules in
priority order (first match wins); a lone `"TAX INVOICE (ORIGINAL)"` or a
lone legal-entity-B marker is not enough, and the empty string is
unrecognized. -/
theorem c1_detect_invoice_type (text : List Char) :
    (detect_invoice_type text = "cloudxp".data ∨
     detect_invoice_type text = "rjil".data ∨
     detect_invoice_type text = "jtl".data ∨
     detect_invoice_type text = "unknown".data) ∧
    (detect_invoice_type text = "cloudxp".data ↔
      (containsSub "TAX INVOICE (ORIGINAL)".data (pyUpper text) = true ∧
       containsSub "ACCOUNT NUMBER".data (pyUpper text) = true)) ∧
    (detect_invoice_type text = "rjil".data ↔
      (¬ (containsSub "TAX INVOICE (ORIGINAL)".data (pyUpper text) = true ∧
          containsSub "ACCOUNT NUMBER".data (pyUpper text) = true) ∧
       containsSub "RELIANCE JIO INFOCOMM LIMITED".data (pyUpper text) = true ∧
       containsSub "ORIGINAL FOR RECIPIENT".data (pyUpper text) = true)) ∧
    (detect_invoice_type text = "jtl".data ↔
      (¬ (containsSub "TAX INVOICE (ORIGINAL)".data (pyUpper text) = true ∧
          containsSub "ACCOUNT NUMBER".data (pyUpper text) = true) ∧
       ¬ (containsSub "RELIANCE JIO INFOCOMM LIMITED".data (pyUpper text) = true ∧
          containsSub "ORIGINAL FOR RECIPIENT".data (pyUpper text) = true) ∧
       containsSub "JIO THINGS LIMITED".data (pyUpper text) = true)) ∧
    detect_invoice_type [] = "unknown".data ∧
    detect_invoice_type "TAX INVOICE (ORIGINAL)".data = "unknown".data ∧
    detect_invoice_type "RELIANCE JIO INFOCOMM LIMITED".data = "unknown".data := by
  have hab : "cloudxp".data ≠ "rjil".data := by decide
  have hac : "cloudxp".data ≠ "jtl".data := by decide
  have hbc : "rjil".data ≠ "jtl".data := by decide
  refine ⟨?_, ?_, ?_, ?_, by decide, by decide, by decide⟩ <;>
  · simp only [detect_invoice_type]
    split_ifs with h1 h2 h3 <;> simp_all [Bool.and_eq_true]


/-- A successful `firstSome` comes from some list element. -/
theorem firstSome_some {α β : Type} {l : List α} {f : α → Option β} {b : β}
    (h : firstSome l f = some b) : ∃ a ∈ l, f a = some b := by
  induction l with
  | nil => simp [firstSome] at h
  | cons a l ih =>
    simp only [firstSome] at h
    cases hfa : f a with
    | some b2 =>
      simp only [hfa] at h
      exact ⟨a, by simp, by rw [hfa, h]⟩
    | none =>
      simp only [hfa] at h
      obtain ⟨x, hx, hfx⟩ := ih h
      exact ⟨x, by simp [hx], hfx⟩

/-- What a successful `mkDate` guarantees. -/
theorem mkDate_some {y m d : Nat} {dt : PyDate} (h : mkDate y m d = some dt) :
    dt = ⟨(y : Int), (m : Int), (d : Int)⟩ ∧ 1 ≤ y ∧
      (d : Int) ≤ daysInMonth (y : Int) (m : Int) := by
  unfold mkDate at h
  split_ifs at h with hc
  exact ⟨(Option.some.injEq _ _ ▸ h).symm, hc.1, hc.2⟩

/-- Every `%d` alternative yields a day count of at least 1. -/
theorem dAlts_pos {s : List Char} {p : Nat × List Char} (hp : p ∈ dAlts s) :
    1 ≤ p.1 := by
  unfold dAlts at hp
  rcases s with _ | ⟨a, _ | ⟨c, r⟩⟩ <;> simp at hp
  · obtain ⟨⟨h1, h2⟩, hp⟩ := hp
    have h1n : 49 ≤ a.toNat := h1
    subst hp
    simpa using by omega
  · rcases hp with ⟨_, hp⟩ | ⟨⟨ha, _⟩, hp⟩ | ⟨⟨_, hc, _⟩, hp⟩ | ⟨⟨ha, _⟩, hp⟩ |
      ⟨⟨_, hc, _⟩, hp⟩ <;> subst hp
    · simpa using by omega
    · have : a.toNat = 49 ∨ a.toNat = 50 := by
        rcases ha with ha | ha <;> subst ha <;> simp
      simpa using by omega
    · have : 49 ≤ c.toNat := hc
      simpa using by omega
    · have : 49 ≤ a.toNat := ha
      simpa using by omega
    · have : 49 ≤ c.toNat := hc
      simpa using by omega

/-- Every `%m` alternative yields a month between 1 and 12. -/
theorem mAlts_bounds {s : List Char} {p : Nat × List Char} (hp : p ∈ mAlts s) :
    1 ≤ p.1 ∧ p.1 ≤ 12 := by
  unfold mAlts at hp
  rcases s with _ | ⟨a, _ | ⟨c, r⟩⟩ <;> simp at hp
  · obtain ⟨⟨h1, h2⟩, hp⟩ := hp
    have h1n : 49 ≤ a.toNat := h1
    have h2n : a.toNat ≤ 57 := h2
    subst hp
    simpa using by omega
  · rcases hp with ⟨⟨ha, hc⟩, hp⟩ | ⟨⟨_, hc1, hc2⟩, hp⟩ | ⟨⟨h1, h2⟩, hp⟩ <;>
      subst hp
    · have : c.toNat = 48 ∨ c.toNat = 49 ∨ c.toNat = 50 := by
        rcases hc with (hc | hc) | hc <;> subst hc <;> simp
      simpa using by omega
    · have g1 : 49 ≤ c.toNat := hc1
      have g2 : c.toNat ≤ 57 := hc2
      simpa using by omega
    · have g1 : 49 ≤ a.toNat := h1
      have g2 : a.toNat ≤ 57 := h2
      simpa using by omega

/-- A successful numeric `strptime` produces a calendar-valid date. -/
theorem strptimeNumDMY_valid {sep : Char} {s : List Char} {dt : PyDate}
    (h : strptimeNumDMY sep s = some dt) : validDate dt := by
  unfold strptimeNumDMY at h
  obtain ⟨dr, hdmem, hk⟩ := firstSome_some h
  have hd1 : 1 ≤ dr.1 := dAlts_pos hdmem
  cases hd2 : dr.2 with
  | nil => rw [hd2] at hk; exact Option.noConfusion hk
  | cons c r2 =>
    rw [hd2] at hk
    simp only [] at hk
    split_ifs at hk with hcsep
    obtain ⟨mr, hmmem, hk2⟩ := firstSome_some hk
    have hm12 : 1 ≤ mr.1 ∧ mr.1 ≤ 12 := mAlts_bounds hmmem
    cases hm2 : mr.2 with
    | nil => rw [hm2] at hk2; exact Option.noConfusion hk2
    | cons c2 r4 =>
      rw [hm2] at hk2
      simp only [] at hk2
      split_ifs at hk2 with hc2sep
      cases hy : y4 r4 with
      | none => rw [hy] at hk2; exact Option.noConfusion hk2
      | some yr =>
        rw [hy] at hk2
        simp only [] at hk2
        split_ifs at hk2 with hr5
        obtain ⟨hdt, hy1, hdim⟩ := mkDate_some hk2
        subst hdt
        have g1 : (1 : Int) ≤ (yr.1 : Int) := by exact_mod_cast hy1
        have g2 : (1 : Int) ≤ (mr.1 : Int) := by exact_mod_cast hm12.1
        have g3 : ((mr.1 : Int)) ≤ 12 := by exact_mod_cast hm12.2
        have g4 : (1 : Int) ≤ (dr.1 : Int) := by exact_mod_cast hd1
        exact ⟨g1, g2, g3, g4, hdim⟩

theorem ord_same_frame (y m a b : Int) :
    dateOrd ⟨y, m, a⟩ - dateOrd ⟨y, m, b⟩ = a - b := by
  simp [dateOrd]

theorem dim_pos (y m : Int) : 1 ≤ daysInMonth y m := by
  unfold daysInMonth
  split_ifs <;> norm_num

theorem dim_le_31 (y m : Int) : daysInMonth y m ≤ 31 := by
  unfold daysInMonth
  split_ifs <;> norm_num

theorem dim_12 (y : Int) : daysInMonth y 12 = 31 := by
  norm_num [daysInMonth]

theorem dbm_step (y M : Int) (h2 : 2 ≤ M) (h12 : M ≤ 12) :
    daysBeforeMonth y M = daysBeforeMonth y (M - 1) + daysInMonth y (M - 1) := by
  interval_cases M <;>
    simp only [daysBeforeMonth, daysInMonth] <;>
    cases hL : isLeap y <;> norm_num [hL]

theorem ord_adjacent (y M a b : Int) (h2 : 2 ≤ M) (h12 : M ≤ 12) :
    dateOrd ⟨y, M, a⟩ - dateOrd ⟨y, M - 1, b⟩ = daysInMonth y (M - 1) + a - b := by
  simp only [dateOrd]
  have := dbm_step y M h2 h12
  omega

theorem ord_year_step (y a b : Int) :
    dateOrd ⟨y + 1, 1, a⟩ - dateOrd ⟨y, 12, b⟩ = 31 + a - b := by
  simp only [dateOrd, daysBeforeMonth]
  norm_num
  rw [Int.fdiv_eq_ediv y (by norm_num), Int.fdiv_eq_ediv (y - 1) (by norm_num),
      Int.fdiv_eq_ediv y (by norm_num), Int.fdiv_eq_ediv (y - 1) (by norm_num),
      Int.fdiv_eq_ediv y (by norm_num), Int.fdiv_eq_ediv (y - 1) (by norm_num)]
  cases hL : isLeap y
  · have hP : ¬ (y % 4 = 0 ∧ (¬ y % 100 = 0 ∨ y % 400 = 0)) := by
      simpa [isLeap, Bool.and_eq_true, not_or] using hL
    simp only [hL, Bool.false_eq_true, if_false]
    omega
  · have hP : y % 4 = 0 ∧ (¬ y % 100 = 0 ∨ y % 400 = 0) := by
      simpa [isLeap, Bool.and_eq_true, not_or] using hL
    simp only [hL, if_true]
    omega

theorem dateLtB_same (y m a b : Int) :
    dateLtB ⟨y, m, a⟩ ⟨y, m, b⟩ = decide (a < b) := by
  simp [dateLtB]

theorem dateLtB_false_of_frame_gt (y1 m1 d1 y2 m2 d2 : Int)
    (h : y2 < y1 ∨ (y2 = y1 ∧ m2 < m1)) :
    dateLtB ⟨y1, m1, d1⟩ ⟨y2, m2, d2⟩ = false := by
  unfold dateLtB
  dsimp only
  split_ifs <;> first | rfl | omega

theorem rdAddMonths_eq (s : PyDate) (n Y M : Int) (hM1 : 1 ≤ M) (hM2 : M ≤ 12)
    (ht : s.y * 12 + (s.m - 1) + n = Y * 12 + (M - 1)) :
    rdAddMonths s n = ⟨Y, M, min s.d (daysInMonth Y M)⟩ := by
  have hy : (s.y * 12 + (s.m - 1) + n).fdiv 12 = Y := by
    rw [ht, Int.fdiv_eq_ediv _ (by norm_num)]
    omega
  have hm : (s.y * 12 + (s.m - 1) + n).fmod 12 + 1 = M := by
    rw [ht, Int.fmod_eq_emod _ (by norm_num)]
    omega
  simp only [rdAddMonths, hy, hm]

theorem rdMonthsAux_stop (dt1 dt2 : PyDate) (useGt : Bool) (inc : Int)
    (f : Nat) (months : Int) (hf : 0 < f)
    (h : (if useGt then dateLtB (rdAddMonths dt2 months) dt1
          else dateLtB dt1 (rdAddMonths dt2 months)) = false) :
    rdMonthsAux dt1 dt2 useGt inc f months = months := by
  cases f with
  | zero => omega
  | succ f2 =>
    have he : rdMonthsAux dt1 dt2 useGt inc (f2 + 1) months =
        if (if useGt then dateLtB (rdAddMonths dt2 months) dt1
            else dateLtB dt1 (rdAddMonths dt2 months)) = true
        then rdMonthsAux dt1 dt2 useGt inc f2 (months + inc) else months := rfl
    rw [he, h]
    simp

theorem rdMonthsAux_step (dt1 dt2 : PyDate) (useGt : Bool) (inc : Int)
    (f : Nat) (months : Int) (hf : 0 < f)
    (h : (if useGt then dateLtB (rdAddMonths dt2 months) dt1
          else dateLtB dt1 (rdAddMonths dt2 months)) = true) :
    rdMonthsAux dt1 dt2 useGt inc f months =
      rdMonthsAux dt1 dt2 useGt inc (f - 1) (months + inc) := by
  cases f with
  | zero => omega
  | succ f2 =>
    have he : rdMonthsAux dt1 dt2 useGt inc (f2 + 1) months =
        if (if useGt then dateLtB (rdAddMonths dt2 months) dt1
            else dateLtB dt1 (rdAddMonths dt2 months)) = true
        then rdMonthsAux dt1 dt2 useGt inc f2 (months + inc) else months := rfl
    rw [he, h]
    simp

theorem dateLtB_d2 (a : PyDate) (d2 : Int) :
    dateLtB a ⟨a.y, a.m, d2⟩ = decide (a.d < d2) := by
  simp [dateLtB]

theorem dateLtB_d1 (a : PyDate) (d2 : Int) :
    dateLtB ⟨a.y, a.m, d2⟩ a = decide (d2 < a.d) := by
  simp [dateLtB]

theorem dateLtB_false_lt_frame (a : PyDate) (y2 m2 d2 : Int)
    (h : y2 < a.y ∨ (y2 = a.y ∧ m2 < a.m)) :
    dateLtB a ⟨y2, m2, d2⟩ = false := by
  unfold dateLtB
  dsimp only
  split_ifs <;> first | rfl | omega

theorem dateLtB_false_gt_frame (a : PyDate) (y2 m2 d2 : Int)
    (h : a.y < y2 ∨ (a.y = y2 ∧ a.m < m2)) :
    dateLtB ⟨y2, m2, d2⟩ a = false := by
  unfold dateLtB
  dsimp only
  split_ifs <;> first | rfl | omega

theorem ord_diff_d2 (a : PyDate) (d2 : Int) :
    dateOrd a - dateOrd ⟨a.y, a.m, d2⟩ = a.d - d2 := by
  simp [dateOrd]

theorem ord_diff_down (a : PyDate) (d2 : Int) (h2 : 2 ≤ a.m) (h12 : a.m ≤ 12) :
    dateOrd a - dateOrd ⟨a.y, a.m - 1, d2⟩ =
      daysInMonth a.y (a.m - 1) + a.d - d2 := by
  have h := dbm_step a.y a.m h2 h12
  simp only [dateOrd]
  omega

theorem ord_diff_up (a : PyDate) (d2 : Int) (h1 : 1 ≤ a.m) (h11 : a.m ≤ 11) :
    dateOrd a - dateOrd ⟨a.y, a.m + 1, d2⟩ =
      a.d - d2 - daysInMonth a.y a.m := by
  have h := dbm_step a.y (a.m + 1) (by omega) (by omega)
  rw [show a.m + 1 - 1 = a.m from by ring] at h
  simp only [dateOrd]
  omega

theorem ord_year_down (a : PyDate) (d2 : Int) (hm : a.m = 1) :
    dateOrd a - dateOrd ⟨a.y - 1, 12, d2⟩ = 31 + a.d - d2 := by
  have h1 : dateOrd a = dateOrd ⟨a.y - 1 + 1, 1, a.d⟩ := by
    rw [show (⟨a.y - 1 + 1, 1, a.d⟩ : PyDate) = ⟨a.y, a.m, a.d⟩ from by
      rw [hm]; norm_num]
  rw [h1, ord_year_step]

theorem ord_year_up (a : PyDate) (d2 : Int) (hm : a.m = 12) :
    dateOrd a - dateOrd ⟨a.y + 1, 1, d2⟩ = a.d - d2 - 31 := by
  have h1 : dateOrd a = dateOrd ⟨a.y, 12, a.d⟩ := by
    rw [show (⟨a.y, 12, a.d⟩ : PyDate) = ⟨a.y, a.m, a.d⟩ from by rw [hm]]
  have h2 := ord_year_step a.y d2 a.d
  omega

theorem rdTotal_eq_spec (s e : PyDate) (hs : validDate s) (he : validDate e) :
    (rdDelta e s).1 + (if 0 < (rdDelta e s).2 then 1 else 0) =
      specTotalMonths s e := by
  obtain ⟨hsy, hsm1, hsm2, hsd1, hsd2⟩ := hs
  obtain ⟨hey, hem1, hem2, hed1, hed2⟩ := he
  have hdimE1 : 1 ≤ daysInMonth e.y e.m := dim_pos e.y e.m
  have hminl : min s.d (daysInMonth e.y e.m) ≤ s.d := min_le_left _ _
  have hminr : min s.d (daysInMonth e.y e.m) ≤ daysInMonth e.y e.m :=
    min_le_right _ _
  have hminc : min s.d (daysInMonth e.y e.m) = s.d ∨
      min s.d (daysInMonth e.y e.m) = daysInMonth e.y e.m := min_choice _ _
  have hD0 : rdAddMonths s ((e.y - s.y) * 12 + (e.m - s.m)) =
      ⟨e.y, e.m, min s.d (daysInMonth e.y e.m)⟩ :=
    rdAddMonths_eq s _ e.y e.m hem1 hem2 (by ring)
  simp only [rdDelta, specTotalMonths]
  by_cases hgt : dateLtB e s = true
  · -- e < s: the loop compares `dtm < e` and increments
    simp only [hgt, if_true]
    by_cases hB : min s.d (daysInMonth e.y e.m) < e.d
    · -- one increment
      have hcond1 : (if (true : Bool) then
            dateLtB (rdAddMonths s ((e.y - s.y) * 12 + (e.m - s.m))) e
          else dateLtB e (rdAddMonths s ((e.y - s.y) * 12 + (e.m - s.m)))) = true := by
        simp only [if_true, hD0, dateLtB_d1]
        simpa using hB
      have hstep := rdMonthsAux_step e s true 1 48
        ((e.y - s.y) * 12 + (e.m - s.m)) (by norm_num) hcond1
      rw [hstep]
      by_cases hm12 : e.m = 12
      · have hN : rdAddMonths s ((e.y - s.y) * 12 + (e.m - s.m) + 1) =
            ⟨e.y + 1, 1, min s.d (daysInMonth (e.y + 1) 1)⟩ :=
          rdAddMonths_eq s _ (e.y + 1) 1 (by norm_num) (by norm_num)
            (by rw [hm12]; ring)
        have hcond2 : (if (true : Bool) then
              dateLtB (rdAddMonths s ((e.y - s.y) * 12 + (e.m - s.m) + 1)) e
            else dateLtB e (rdAddMonths s ((e.y - s.y) * 12 + (e.m - s.m) + 1))) = false := by
          simp only [if_true, hN]
          exact dateLtB_false_gt_frame e _ _ _ (Or.inl (by omega))
        have hstop := rdMonthsAux_stop e s true 1 (48 - 1)
          ((e.y - s.y) * 12 + (e.m - s.m) + 1) (by norm_num) hcond2
        rw [hstop, hN, ord_year_up e _ hm12]
        have hd31 : e.d ≤ 31 := by
          have h31 := dim_12 e.y
          rw [hm12] at hed2
          omega
        have hNd : 1 ≤ min s.d (daysInMonth (e.y + 1) 1) :=
          le_min hsd1 (dim_pos _ _)
        split_ifs <;> omega
      · -- next month in the same year
        have hN : rdAddMonths s ((e.y - s.y) * 12 + (e.m - s.m) + 1) =
            ⟨e.y, e.m + 1, min s.d (daysInMonth e.y (e.m + 1))⟩ :=
          rdAddMonths_eq s _ e.y (e.m + 1) (by omega) (by omega) (by ring)
        have hcond2 : (if (true : Bool) then
              dateLtB (rdAddMonths s ((e.y - s.y) * 12 + (e.m - s.m) + 1)) e
            else dateLtB e (rdAddMonths s ((e.y - s.y) * 12 + (e.m - s.m) + 1))) = false := by
          simp only [if_true, hN]
          exact dateLtB_false_gt_frame e _ _ _ (Or.inr ⟨rfl, by omega⟩)
        have hstop := rdMonthsAux_stop e s true 1 (48 - 1)
          ((e.y - s.y) * 12 + (e.m - s.m) + 1) (by norm_num) hcond2
        rw [hstop, hN, ord_diff_up e _ hem1 (by omega)]
        have hNd : 1 ≤ min s.d (daysInMonth e.y (e.m + 1)) :=
          le_min hsd1 (dim_pos _ _)
        split_ifs <;> omega
    · -- immediate stop
      have hcond : (if (true : Bool) then
            dateLtB (rdAddMonths s ((e.y - s.y) * 12 + (e.m - s.m))) e
          else dateLtB e (rdAddMonths s ((e.y - s.y) * 12 + (e.m - s.m)))) = false := by
        simp only [if_true, hD0, dateLtB_d1]
        simpa using hB
      have hstop := rdMonthsAux_stop e s true 1 48
        ((e.y - s.y) * 12 + (e.m - s.m)) (by norm_num) hcond
      rw [hstop, hD0, ord_diff_d2]
      split_ifs <;> omega
  · rw [Bool.not_eq_true] at hgt
    simp only [hgt, Bool.false_eq_true, if_false]
    -- s ≤ e: the loop compares `e < dtm` and decrements
    by_cases hA : e.d < min s.d (daysInMonth e.y e.m)
    · -- one decrement
      have hcond1 : (if (false : Bool) then
            dateLtB (rdAddMonths s ((e.y - s.y) * 12 + (e.m - s.m))) e
          else dateLtB e (rdAddMonths s ((e.y - s.y) * 12 + (e.m - s.m)))) = true := by
        simp only [Bool.false_eq_true, if_false, hD0, dateLtB_d2]
        simpa using hA
      have hstep := rdMonthsAux_step e s false (-1) 48
        ((e.y - s.y) * 12 + (e.m - s.m)) (by norm_num) hcond1
      rw [hstep]
      by_cases hm1 : e.m = 1
      · have hP : rdAddMonths s ((e.y - s.y) * 12 + (e.m - s.m) + -1) =
            ⟨e.y - 1, 12, min s.d (daysInMonth (e.y - 1) 12)⟩ :=
          rdAddMonths_eq s _ (e.y - 1) 12 (by norm_num) (by norm_num)
            (by rw [hm1]; ring)
        have hcond2 : (if (false : Bool) then
              dateLtB (rdAddMonths s ((e.y - s.y) * 12 + (e.m - s.m) + -1)) e
            else dateLtB e (rdAddMonths s ((e.y - s.y) * 12 + (e.m - s.m) + -1))) = false := by
          simp only [Bool.false_eq_true, if_false, hP]
          exact dateLtB_false_lt_frame e _ _ _ (Or.inl (by omega))
        have hstop := rdMonthsAux_stop e s false (-1) (48 - 1)
          ((e.y - s.y) * 12 + (e.m - s.m) + -1) (by norm_num) hcond2
        rw [hstop, hP, ord_year_down e _ hm1]
        have hPd : min s.d (daysInMonth (e.y - 1) 12) ≤ 31 := by
          have := dim_12 (e.y - 1)
          omega
        split_ifs <;> omega
      · -- previous month in the same year
        have hP : rdAddMonths s ((e.y - s.y) * 12 + (e.m - s.m) + -1) =
            ⟨e.y, e.m - 1, min s.d (daysInMonth e.y (e.m - 1))⟩ :=
          rdAddMonths_eq s _ e.y (e.m - 1) (by omega) (by omega) (by ring)
        have hcond2 : (if (false : Bool) then
              dateLtB (rdAddMonths s ((e.y - s.y) * 12 + (e.m - s.m) + -1)) e
            else dateLtB e (rdAddMonths s ((e.y - s.y) * 12 + (e.m - s.m) + -1))) = false := by
          simp only [Bool.false_eq_true, if_false, hP]
          exact dateLtB_false_lt_frame e _ _ _ (Or.inr ⟨rfl, by omega⟩)
        have hstop := rdMonthsAux_stop e s false (-1) (48 - 1)
          ((e.y - s.y) * 12 + (e.m - s.m) + -1) (by norm_num) hcond2
        rw [hstop, hP, ord_diff_down e _ (by omega) hem2]
        have hPd : min s.d (daysInMonth e.y (e.m - 1)) ≤ daysInMonth e.y (e.m - 1) :=
          min_le_right _ _
        split_ifs <;> omega
    · -- immediate stop
      have hcond : (if (false : Bool) then
            dateLtB (rdAddMonths s ((e.y - s.y) * 12 + (e.m - s.m))) e
          else dateLtB e (rdAddMonths s ((e.y - s.y) * 12 + (e.m - s.m)))) = false := by
        simp only [Bool.false_eq_true, if_false, hD0, dateLtB_d2]
        simpa using hA
      have hstop := rdMonthsAux_stop e s false (-1) 48
        ((e.y - s.y) * 12 + (e.m - s.m)) (by norm_num) hcond
      rw [hstop, hD0, ord_diff_d2]
      split_ifs <;> omega

/-- **C3**: `calculate_billing_frequency` returns `""` when either input
is empty or fails to parse as `DD/MM/YYYY`; otherwise the label is
`freqLabel` applied to the calendar-month difference (years×12 + months)
plus one extra month exactly when the end day-of-month exceeds the
start's (`specTotalMonths`, proved equal to the `relativedelta`-based
total the code computes); the four spec examples evaluate as stated. -/
theorem c3_calculate_billing_frequency :
    calculate_billing_frequency [] [] = [] ∧
    (∀ f t : List Char,
       strptimeNumDMY '/' f = none ∨ strptimeNumDMY '/' t = none →
       calculate_billing_frequency f t = []) ∧
    (∀ (f t : List Char) (sd ed : PyDate),
       strptimeNumDMY '/' f = some sd → strptimeNumDMY '/' t = some ed →
       calculate_billing_frequency f t = freqLabel (specTotalMonths sd ed)) ∧
    calculate_billing_frequency "01/11/2025".data "30/11/2025".data =
      "Monthly".data ∧
    calculate_billing_frequency "01/10/2025".data "31/12/2025".data =
      "Quarterly".data ∧
    calculate_billing_frequency "01/07/2025".data "31/12/2025".data =
      "Half-Yearly".data ∧
    calculate_billing_frequency "01/01/2025".data "31/12/2025".data =
      "Yearly".data := by
  refine ⟨rfl, ?_, ?_, by decide, by decide, by decide, by decide⟩
  · intro f t h
    unfold calculate_billing_frequency
    split_ifs with hft
    · rfl
    · rcases h with h | h
      · rw [h]
      · cases hf : strptimeNumDMY '/' f
        · rfl
        · rw [h]
  · intro f t sd ed hf ht
    have hfne : f ≠ [] := by
      intro h
      rw [h, strptimeNumDMY_nil] at hf
      exact Option.noConfusion hf
    have htne : t ≠ [] := by
      intro h
      rw [h, strptimeNumDMY_nil] at ht
      exact Option.noConfusion ht
    unfold calculate_billing_frequency
    rw [if_neg (by simp [hfne, htne]), hf, ht]
    simp only []
    congr 1
    exact rdTotal_eq_spec sd ed (strptimeNumDMY_valid hf) (strptimeNumDMY_valid ht)

/-- Witness for `c3_calculate_billing_frequency` at concrete inputs. -/
theorem c3_calculate_billing_frequency_witness :
    calculate_billing_frequency "xx".data "01/01/2025".data = [] ∧
    calculate_billing_frequency "01/01/2024".data "15/02/2026".data =
      "26 Months".data :=
  ⟨c3_calculate_billing_frequency.2.1 "xx".data "01/01/2025".data
     (Or.inl (by decide)),
   by
    have := c3_calculate_billing_frequency.2.2.1 "01/01/2024".data
      "15/02/2026".data ⟨2024, 1, 1⟩ ⟨2026, 2, 15⟩ (by decide) (by decide)
    rw [this]
    decide⟩
